import Mathlib

/-!
Shallow embedding of the KomodoPlatform RPC dispatcher
(`src/utils/py/data/dispatcher.rs`).

The method router is a chain of namespace tests performed with Rust's
`str::strip_prefix` followed by flat `match` tables over the remaining
method string.  Each Rust `match` table is embedded as an association
list from method string to the name of the Rust handler function that
the corresponding arm calls; `table_dispatch` performs the exact-match
lookup.  Handler invocation itself (argument deserialization and
response building inside `handle_mmrpc`) is outside the routing logic
and is abstracted to the identity of the selected handler.

Build configuration: the `wasm` flag models `target_arch = "wasm32"`.
The `lightning::` namespace and the `enable_lightning::*` task arms
exist only when `wasm = false`; the `connect_metamask::*` task arms
exist only when `wasm = true`.  The `enable-sia` cargo feature is
modelled as disabled (its arms are absent), matching the default build.
-/

/-- Identity of a Rust handler function (the function named by a
dispatch-table arm, including its generic instantiation). -/
structure Handler where
  name : String
deriving DecidableEq, Repr

/-- Modelled from the spec: `DispatcherError` is declared outside src/
(only `use super::DispatcherError` is visible).  The variants
`LocalHostOnly`, `Banned`, `NoSuchMethod` and `UserpassIsNotSet` are
the ones constructed in src/; `IncorrectCredential` is the error the
spec assigns to `process_rate_limit` (spec section 4.2 rule 4, named
`CredentialMissing`/`IncorrectCredential` in section 7, where
`UserpassIsNotSet` is the source's name for `CredentialMissing`);
`MalformedRequest` is the error the spec assigns to a failed envelope
decode (spec section 7). -/
inductive DispatcherError
  | LocalHostOnly
  | Banned
  | NoSuchMethod
  | UserpassIsNotSet
  | IncorrectCredential
  | MalformedRequest
deriving DecidableEq, Repr

deriving instance DecidableEq for Except

/-- Embedding of Rust `str::strip_prefix`: when `p` is a character
prefix of `s`, return the remainder of `s`, otherwise `none`. -/
def stripNs (p s : String) : Option String :=
  if p.data.isPrefixOf s.data then some (String.mk (s.data.drop p.data.length)) else none

/-- Method keys of a dispatch table. -/
def keysOf (t : List (String × Handler)) : List String := t.map Prod.fst

/-- Exact-match lookup of a method string in a flat dispatch table; a
miss is `NoSuchMethod`.  This embeds each Rust `match method { "k" =>
handle_mmrpc(ctx, request, f), ..., _ => MmError::err(NoSuchMethod) }`
block. -/
def table_dispatch (t : List (String × Handler)) (m : String) : Except DispatcherError Handler :=
  match List.lookup m t with
  | some h => .ok h
  | none => .error .NoSuchMethod

/-- Dispatch table of `rpc_streaming_dispatcher` (dispatcher.rs lines 381-392). -/
def streamTable : List (String × Handler) :=
  [ ("balance::enable", ⟨"streaming_activations::enable_balance"⟩)
  , ("network::enable", ⟨"streaming_activations::enable_network"⟩)
  , ("heartbeat::enable", ⟨"streaming_activations::enable_heartbeat"⟩)
  , ("fee_estimator::enable", ⟨"streaming_activations::enable_fee_estimation"⟩)
  , ("swap_status::enable", ⟨"streaming_activations::enable_swap_status"⟩)
  , ("order_status::enable", ⟨"streaming_activations::enable_order_status"⟩)
  , ("tx_history::enable", ⟨"streaming_activations::enable_tx_history"⟩)
  , ("orderbook::enable", ⟨"streaming_activations::enable_orderbook"⟩)
  , ("disable", ⟨"streaming_activations::disable_streamer"⟩) ]

/-- Build-independent arms of `rpc_task_dispatcher` (dispatcher.rs lines 279-357;
the `enable-sia` feature arms are absent in the default build). -/
def taskTableCommon : List (String × Handler) :=
  [ ("account_balance::cancel", ⟨"cancel_account_balance"⟩)
  , ("account_balance::init", ⟨"init_account_balance"⟩)
  , ("account_balance::status", ⟨"init_account_balance_status"⟩)
  , ("create_new_account::cancel", ⟨"cancel_create_new_account"⟩)
  , ("create_new_account::init", ⟨"init_create_new_account"⟩)
  , ("create_new_account::status", ⟨"init_create_new_account_status"⟩)
  , ("create_new_account::user_action", ⟨"init_create_new_account_user_action"⟩)
  , ("enable_bch::cancel", ⟨"cancel_init_standalone_coin::<BchCoin>"⟩)
  , ("enable_bch::init", ⟨"init_standalone_coin::<BchCoin>"⟩)
  , ("enable_bch::status", ⟨"init_standalone_coin_status::<BchCoin>"⟩)
  , ("enable_bch::user_action", ⟨"init_standalone_coin_user_action::<BchCoin>"⟩)
  , ("enable_qtum::cancel", ⟨"cancel_init_standalone_coin::<QtumCoin>"⟩)
  , ("enable_qtum::init", ⟨"init_standalone_coin::<QtumCoin>"⟩)
  , ("enable_qtum::status", ⟨"init_standalone_coin_status::<QtumCoin>"⟩)
  , ("enable_qtum::user_action", ⟨"init_standalone_coin_user_action::<QtumCoin>"⟩)
  , ("enable_utxo::cancel", ⟨"cancel_init_standalone_coin::<UtxoStandardCoin>"⟩)
  , ("enable_utxo::init", ⟨"init_standalone_coin::<UtxoStandardCoin>"⟩)
  , ("enable_utxo::status", ⟨"init_standalone_coin_status::<UtxoStandardCoin>"⟩)
  , ("enable_utxo::user_action", ⟨"init_standalone_coin_user_action::<UtxoStandardCoin>"⟩)
  , ("enable_eth::cancel", ⟨"cancel_init_platform_coin_with_tokens::<EthCoin>"⟩)
  , ("enable_eth::init", ⟨"init_platform_coin_with_tokens::<EthCoin>"⟩)
  , ("enable_eth::status", ⟨"init_platform_coin_with_tokens_status::<EthCoin>"⟩)
  , ("enable_eth::user_action", ⟨"init_platform_coin_with_tokens_user_action::<EthCoin>"⟩)
  , ("enable_erc20::cancel", ⟨"cancel_init_token::<EthCoin>"⟩)
  , ("enable_erc20::init", ⟨"init_token::<EthCoin>"⟩)
  , ("enable_erc20::status", ⟨"init_token_status::<EthCoin>"⟩)
  , ("enable_erc20::user_action", ⟨"init_token_user_action::<EthCoin>"⟩)
  , ("enable_tendermint::cancel", ⟨"cancel_init_platform_coin_with_tokens::<TendermintCoin>"⟩)
  , ("enable_tendermint::init", ⟨"init_platform_coin_with_tokens::<TendermintCoin>"⟩)
  , ("enable_tendermint::status", ⟨"init_platform_coin_with_tokens_status::<TendermintCoin>"⟩)
  , ("enable_tendermint::user_action", ⟨"init_platform_coin_with_tokens_user_action::<TendermintCoin>"⟩)
  , ("get_new_address::cancel", ⟨"cancel_get_new_address"⟩)
  , ("get_new_address::init", ⟨"init_get_new_address"⟩)
  , ("get_new_address::status", ⟨"init_get_new_address_status"⟩)
  , ("get_new_address::user_action", ⟨"init_get_new_address_user_action"⟩)
  , ("scan_for_new_addresses::cancel", ⟨"cancel_scan_for_new_addresses"⟩)
  , ("scan_for_new_addresses::init", ⟨"init_scan_for_new_addresses"⟩)
  , ("scan_for_new_addresses::status", ⟨"init_scan_for_new_addresses_status"⟩)
  , ("init_trezor::cancel", ⟨"cancel_init_trezor"⟩)
  , ("init_trezor::init", ⟨"init_trezor"⟩)
  , ("init_trezor::status", ⟨"init_trezor_status"⟩)
  , ("init_trezor::user_action", ⟨"init_trezor_user_action"⟩)
  , ("withdraw::cancel", ⟨"cancel_withdraw"⟩)
  , ("withdraw::init", ⟨"init_withdraw"⟩)
  , ("withdraw::status", ⟨"withdraw_status"⟩)
  , ("withdraw::user_action", ⟨"withdraw_user_action"⟩)
  , ("enable_z_coin::init", ⟨"init_standalone_coin::<ZCoin>"⟩)
  , ("enable_z_coin::cancel", ⟨"cancel_init_standalone_coin::<ZCoin>"⟩)
  , ("enable_z_coin::status", ⟨"init_standalone_coin_status::<ZCoin>"⟩)
  , ("enable_z_coin::user_action", ⟨"init_standalone_coin_user_action::<ZCoin>"⟩) ]

/-- Arms of `rpc_task_dispatcher` under `cfg(not(target_arch = "wasm32"))`
(dispatcher.rs lines 358-365). -/
def taskTableNative : List (String × Handler) :=
  [ ("enable_lightning::cancel", ⟨"cancel_init_l2::<LightningCoin>"⟩)
  , ("enable_lightning::init", ⟨"init_l2::<LightningCoin>"⟩)
  , ("enable_lightning::status", ⟨"init_l2_status::<LightningCoin>"⟩)
  , ("enable_lightning::user_action", ⟨"init_l2_user_action::<LightningCoin>"⟩) ]

/-- Arms of `rpc_task_dispatcher` under `cfg(target_arch = "wasm32")`
(dispatcher.rs lines 366-372). -/
def taskTableWasm : List (String × Handler) :=
  [ ("connect_metamask::cancel", ⟨"cancel_connect_metamask"⟩)
  , ("connect_metamask::init", ⟨"connect_metamask"⟩)
  , ("connect_metamask::status", ⟨"connect_metamask_status"⟩) ]

/-- Full `task::` dispatch table for a build: the common arms followed by
the build-specific catch-all sub-match (dispatcher.rs lines 279-373). -/
def taskTable (wasm : Bool) : List (String × Handler) :=
  taskTableCommon ++ (if wasm then taskTableWasm else taskTableNative)

/-- Dispatch table of `gui_storage_dispatcher` (dispatcher.rs lines 407-420). -/
def guiStorageTable : List (String × Handler) :=
  [ ("activate_coins", ⟨"gui_storage_rpc::activate_coins"⟩)
  , ("add_account", ⟨"gui_storage_rpc::add_account"⟩)
  , ("deactivate_coins", ⟨"gui_storage_rpc::deactivate_coins"⟩)
  , ("delete_account", ⟨"gui_storage_rpc::delete_account"⟩)
  , ("enable_account", ⟨"gui_storage_rpc::enable_account"⟩)
  , ("get_accounts", ⟨"gui_storage_rpc::get_accounts"⟩)
  , ("get_account_coins", ⟨"gui_storage_rpc::get_account_coins"⟩)
  , ("get_enabled_account", ⟨"gui_storage_rpc::get_enabled_account"⟩)
  , ("set_account_balance", ⟨"gui_storage_rpc::set_account_balance"⟩)
  , ("set_account_description", ⟨"gui_storage_rpc::set_account_description"⟩)
  , ("set_account_name", ⟨"gui_storage_rpc::set_account_name"⟩) ]

/-- Dispatch table of `lightning_dispatcher` (dispatcher.rs lines 436-457),
present only on non-wasm builds. -/
def lightningTable : List (String × Handler) :=
  [ ("channels::close_channel", ⟨"channels::close_channel"⟩)
  , ("channels::get_channel_details", ⟨"channels::get_channel_details"⟩)
  , ("channels::get_claimable_balances", ⟨"channels::get_claimable_balances"⟩)
  , ("channels::list_closed_channels_by_filter", ⟨"channels::list_closed_channels_by_filter"⟩)
  , ("channels::list_open_channels_by_filter", ⟨"channels::list_open_channels_by_filter"⟩)
  , ("channels::open_channel", ⟨"channels::open_channel"⟩)
  , ("channels::update_channel", ⟨"channels::update_channel"⟩)
  , ("nodes::add_trusted_node", ⟨"nodes::add_trusted_node"⟩)
  , ("nodes::connect_to_node", ⟨"nodes::connect_to_node"⟩)
  , ("nodes::list_trusted_nodes", ⟨"nodes::list_trusted_nodes"⟩)
  , ("nodes::remove_trusted_node", ⟨"nodes::remove_trusted_node"⟩)
  , ("payments::generate_invoice", ⟨"payments::generate_invoice"⟩)
  , ("payments::get_payment_details", ⟨"payments::get_payment_details"⟩)
  , ("payments::list_payments_by_filter", ⟨"payments::list_payments_by_filter"⟩)
  , ("payments::send_payment", ⟨"payments::send_payment"⟩) ]

/-- Dispatch table of the nested `query_dispatcher` inside
`staking_dispatcher` (dispatcher.rs lines 471-476). -/
def stakingQueryTable : List (String × Handler) :=
  [ ("delegations", ⟨"delegations_info"⟩)
  , ("ongoing_undelegations", ⟨"ongoing_undelegations_info"⟩)
  , ("validators", ⟨"validators_info"⟩) ]

/-- Flat dispatch table of `staking_dispatcher` (dispatcher.rs lines 483-488). -/
def stakingTable : List (String × Handler) :=
  [ ("claim_rewards", ⟨"claim_staking_rewards"⟩)
  , ("delegate", ⟨"add_delegation"⟩)
  , ("undelegate", ⟨"remove_delegation"⟩) ]

/-- Top-level flat dispatch table of `dispatcher_v2` (dispatcher.rs lines 194-264). -/
def topTable : List (String × Handler) :=
  [ ("account_balance", ⟨"account_balance"⟩)
  , ("active_swaps", ⟨"active_swaps_rpc"⟩)
  , ("add_node_to_version_stat", ⟨"add_node_to_version_stat"⟩)
  , ("approve_token", ⟨"approve_token_rpc"⟩)
  , ("get_token_allowance", ⟨"get_token_allowance_rpc"⟩)
  , ("best_orders", ⟨"best_orders_rpc_v2"⟩)
  , ("clear_nft_db", ⟨"clear_nft_db"⟩)
  , ("enable_bch_with_tokens", ⟨"enable_platform_coin_with_tokens::<BchCoin>"⟩)
  , ("enable_slp", ⟨"enable_token::<SlpToken>"⟩)
  , ("enable_eth_with_tokens", ⟨"enable_platform_coin_with_tokens::<EthCoin>"⟩)
  , ("enable_erc20", ⟨"enable_token::<EthCoin>"⟩)
  , ("enable_nft", ⟨"enable_token::<EthCoin>"⟩)
  , ("enable_tendermint_with_assets", ⟨"enable_platform_coin_with_tokens::<TendermintCoin>"⟩)
  , ("enable_tendermint_token", ⟨"enable_token::<TendermintToken>"⟩)
  , ("get_current_mtp", ⟨"get_current_mtp_rpc"⟩)
  , ("get_enabled_coins", ⟨"get_enabled_coins"⟩)
  , ("get_locked_amount", ⟨"get_locked_amount_rpc"⟩)
  , ("get_mnemonic", ⟨"get_mnemonic_rpc"⟩)
  , ("get_my_address", ⟨"get_my_address"⟩)
  , ("get_new_address", ⟨"get_new_address"⟩)
  , ("get_nft_list", ⟨"get_nft_list"⟩)
  , ("get_nft_metadata", ⟨"get_nft_metadata"⟩)
  , ("get_nft_transfers", ⟨"get_nft_transfers"⟩)
  , ("get_public_key", ⟨"get_public_key"⟩)
  , ("get_public_key_hash", ⟨"get_public_key_hash"⟩)
  , ("get_raw_transaction", ⟨"get_raw_transaction"⟩)
  , ("get_shared_db_id", ⟨"get_shared_db_id"⟩)
  , ("get_token_info", ⟨"get_token_info"⟩)
  , ("get_wallet_names", ⟨"get_wallet_names_rpc"⟩)
  , ("max_maker_vol", ⟨"max_maker_vol"⟩)
  , ("my_recent_swaps", ⟨"my_recent_swaps_rpc"⟩)
  , ("my_swap_status", ⟨"my_swap_status_rpc"⟩)
  , ("my_tx_history", ⟨"my_tx_history_v2_rpc"⟩)
  , ("orderbook", ⟨"orderbook_rpc_v2"⟩)
  , ("recreate_swap_data", ⟨"recreate_swap_data"⟩)
  , ("refresh_nft_metadata", ⟨"refresh_nft_metadata"⟩)
  , ("remove_node_from_version_stat", ⟨"remove_node_from_version_stat"⟩)
  , ("sign_message", ⟨"sign_message"⟩)
  , ("sign_raw_transaction", ⟨"sign_raw_transaction"⟩)
  , ("start_simple_market_maker_bot", ⟨"start_simple_market_maker_bot"⟩)
  , ("start_version_stat_collection", ⟨"start_version_stat_collection"⟩)
  , ("stop_simple_market_maker_bot", ⟨"stop_simple_market_maker_bot"⟩)
  , ("stop_version_stat_collection", ⟨"stop_version_stat_collection"⟩)
  , ("trade_preimage", ⟨"trade_preimage_rpc"⟩)
  , ("trezor_connection_status", ⟨"trezor_connection_status"⟩)
  , ("update_nft", ⟨"update_nft"⟩)
  , ("change_mnemonic_password", ⟨"change_mnemonic_password"⟩)
  , ("update_version_stat_collection", ⟨"update_version_stat_collection"⟩)
  , ("verify_message", ⟨"verify_message"⟩)
  , ("withdraw", ⟨"withdraw"⟩)
  , ("ibc_chains", ⟨"ibc_chains"⟩)
  , ("ibc_transfer_channels", ⟨"ibc_transfer_channels"⟩)
  , ("peer_connection_healthcheck", ⟨"peer_connection_healthcheck_rpc"⟩)
  , ("withdraw_nft", ⟨"withdraw_nft"⟩)
  , ("get_eth_estimated_fee_per_gas", ⟨"get_eth_estimated_fee_per_gas"⟩)
  , ("get_swap_transaction_fee_policy", ⟨"get_swap_transaction_fee_policy"⟩)
  , ("set_swap_transaction_fee_policy", ⟨"set_swap_transaction_fee_policy"⟩)
  , ("send_asked_data", ⟨"send_asked_data_rpc"⟩)
  , ("z_coin_tx_history", ⟨"coins::my_tx_history_v2::z_coin_tx_history_rpc"⟩)
  , ("1inch_v6_0_classic_swap_contract", ⟨"one_inch_v6_0_classic_swap_contract_rpc"⟩)
  , ("1inch_v6_0_classic_swap_quote", ⟨"one_inch_v6_0_classic_swap_quote_rpc"⟩)
  , ("1inch_v6_0_classic_swap_create", ⟨"one_inch_v6_0_classic_swap_create_rpc"⟩)
  , ("1inch_v6_0_classic_swap_liquidity_sources", ⟨"one_inch_v6_0_classic_swap_liquidity_sources_rpc"⟩)
  , ("1inch_v6_0_classic_swap_tokens", ⟨"one_inch_v6_0_classic_swap_tokens_rpc"⟩) ]

/-- Embedding of `rpc_streaming_dispatcher` (dispatcher.rs lines 376-393). -/
def rpc_streaming_dispatcher (streaming_request : String) : Except DispatcherError Handler :=
  table_dispatch streamTable streaming_request

/-- Embedding of `rpc_task_dispatcher` (dispatcher.rs lines 274-374):
the common arms, then the build-specific catch-all sub-match whose own
catch-all is `NoSuchMethod`. -/
def rpc_task_dispatcher (wasm : Bool) (task_method : String) : Except DispatcherError Handler :=
  table_dispatch (taskTable wasm) task_method

/-- Embedding of `gui_storage_dispatcher` (dispatcher.rs lines 400-421). -/
def gui_storage_dispatcher (gui_storage_method : String) : Except DispatcherError Handler :=
  table_dispatch guiStorageTable gui_storage_method

/-- Embedding of `lightning_dispatcher` (dispatcher.rs lines 429-458),
compiled only when `cfg(not(target_arch = "wasm32"))`. -/
def lightning_dispatcher (lightning_method : String) : Except DispatcherError Handler :=
  table_dispatch lightningTable lightning_method

/-- Embedding of `staking_dispatcher` (dispatcher.rs lines 461-489): a
`query::` remainder is peeled first and sent to the nested query table,
otherwise the flat staking table is consulted. -/
def staking_dispatcher (staking_method : String) : Except DispatcherError Handler :=
  match stripNs "query::" staking_method with
  | some staking_query_method => table_dispatch stakingQueryTable staking_query_method
  | none => table_dispatch stakingTable staking_method

/-- Embedding of `experimental_rpcs_dispatcher` (dispatcher.rs lines
155-165): only a `staking::` remainder is recognised; everything else
is `NoSuchMethod` (there is no flat table at this level). -/
def experimental_rpcs_dispatcher (experimental_method : String) : Except DispatcherError Handler :=
  match stripNs "staking::" experimental_method with
  | some staking_method => staking_dispatcher staking_method
  | none => .error .NoSuchMethod

/-- Embedding of `dispatcher_v2` (dispatcher.rs lines 167-265): the
namespace tests in source order (`stream::`, `task::`, `gui_storage::`,
`experimental::`, then `lightning::` on non-wasm builds only), each via
`strip_prefix` on the full method string, falling through to the
top-level flat table. -/
def dispatcher_v2 (wasm : Bool) (m : String) : Except DispatcherError Handler :=
  match stripNs "stream::" m with
  | some streaming_request => rpc_streaming_dispatcher streaming_request
  | none =>
  match stripNs "task::" m with
  | some task_method => rpc_task_dispatcher wasm task_method
  | none =>
  match stripNs "gui_storage::" m with
  | some gui_storage_method => gui_storage_dispatcher gui_storage_method
  | none =>
  match stripNs "experimental::" m with
  | some experimental_method => experimental_rpcs_dispatcher experimental_method
  | none =>
  if wasm then table_dispatch topTable m
  else
    match stripNs "lightning::" m with
    | some lightning_method => lightning_dispatcher lightning_method
    | none => table_dispatch topTable m

/-- Every full method string that resolves to a handler, for a given
build: each sub-table key re-joined with the namespace chain that
reaches it, plus the top-level flat table keys. -/
def routableMethods (wasm : Bool) : List String :=
  (keysOf streamTable).map (fun k => "stream::" ++ k)
  ++ (keysOf (taskTable wasm)).map (fun k => "task::" ++ k)
  ++ (keysOf guiStorageTable).map (fun k => "gui_storage::" ++ k)
  ++ (keysOf stakingQueryTable).map (fun k => "experimental::" ++ ("staking::" ++ ("query::" ++ k)))
  ++ (keysOf stakingTable).map (fun k => "experimental::" ++ ("staking::" ++ k))
  ++ (if wasm then [] else (keysOf lightningTable).map (fun k => "lightning::" ++ k))
  ++ keysOf topTable

/-- Client IP address: an abstract identifier together with the value
of Rust's `IpAddr::is_loopback` for it, both supplied by the
transport. -/
structure IpAddr where
  id : Nat
  is_loopback : Bool
deriving DecidableEq, Repr

/-- Socket address of the caller; dispatch uses only its IP part
(`client.ip()`). -/
structure SocketAddr where
  ip : IpAddr
deriving DecidableEq, Repr

/-- Modelled from the spec: the Rate Limiter / Ban Store state
(`rpc/rate_limiter.rs`, not under src/): a per-address count of failed
authentication attempts and a per-address ban flag (spec section 4.3). -/
structure RateLimitContext where
  failures : IpAddr → Nat
  banned : IpAddr → Bool

/-- Modelled from the spec: `is_banned(address) -> bool` reads the Ban
Store (spec section 4.3). -/
def RateLimitContext.is_banned (ctx : RateLimitContext) (ip : IpAddr) : Bool :=
  ctx.banned ip

/-- Modelled from the spec: `process_rate_limit` (called on
dispatcher.rs line 146, defined outside src/) registers exactly one
failed attempt against the client address and yields the
incorrect-credential error (spec section 4.2 rule 4, section 7). -/
def process_rate_limit (ctx : RateLimitContext) (client : SocketAddr) :
    RateLimitContext × DispatcherError :=
  ({ ctx with
      failures := fun ip => if ip = client.ip then ctx.failures ip + 1 else ctx.failures ip },
   .IncorrectCredential)

/-- Protocol version enumeration `MmRpcVersion` (mm2_rpc crate): a
closed enumeration with the single supported variant `V2`. -/
inductive MmRpcVersion
  | V2
deriving DecidableEq, Repr

/-- Request envelope `MmRpcRequest` (mm2_rpc crate), restricted to the
fields the dispatch layer consults before a handler is selected:
protocol version, method name and optional credential.  The `params`
value and the correlation `id` are only read inside `handle_mmrpc`,
after routing, and are omitted. -/
structure MmRpcRequest where
  mmrpc : MmRpcVersion
  method : String
  userpass : Option String
deriving DecidableEq, Repr

/-- Raw transport value handed to `process_single_request`: either it
deserializes into the envelope shape or it does not. -/
inductive RawRequest
  | malformed
  | wellFormed (request : MmRpcRequest)
deriving DecidableEq, Repr

/-- Modelled from the spec: `json::from_value::<MmRpcRequest>` (serde,
outside src/), whose failure the `?` on dispatcher.rs line 81 converts
into the error the spec names `MalformedRequest` (spec sections 4.1
and 7). -/
def decode_request : RawRequest → Except DispatcherError MmRpcRequest
  | .malformed => .error .MalformedRequest
  | .wellFormed request => .ok request

/-- Embedding of `auth` (dispatcher.rs lines 135-149).  `pubs` stands
for the `PUBLIC_METHODS` set (declared outside src/, queried only
through `contains`) and `rpc_password_conf` for the value of
`ctx.conf["rpc_password"].as_str()`, which is `none` when the key is
absent or not a string; `unwrap_or_else` then substitutes the empty
string.  The rate-limiter state is threaded explicitly because
`process_rate_limit` mutates it. -/
def auth (pubs : List String) (rpc_password_conf : Option String)
    (request : MmRpcRequest) (ctx : RateLimitContext) (client : SocketAddr) :
    Except DispatcherError Unit × RateLimitContext :=
  if request.method ∈ pubs then (.ok (), ctx)
  else
    let rpc_password := rpc_password_conf.getD ""
    match request.userpass with
    | some userpass =>
      if userpass = rpc_password then (.ok (), ctx)
      else
        let result := process_rate_limit ctx client
        (.error result.2, result.1)
    | none => (.error .UserpassIsNotSet, ctx)

/-- Embedding of `process_single_request` (dispatcher.rs lines 75-98):
decode the raw value, check the local-only policy, check the ban
store, run `auth`, and only then match the protocol version and run
`dispatcher_v2`.  The outcome is paired with the rate-limiter state
after the request; handler execution is abstracted to the selected
handler's identity, as in `dispatcher_v2`. -/
def process_single_request (pubs : List String) (rpc_password_conf : Option String)
    (wasm : Bool) (ctx : RateLimitContext) (req : RawRequest) (client : SocketAddr)
    (local_only : Bool) : Except DispatcherError Handler × RateLimitContext :=
  match decode_request req with
  | .error e => (.error e, ctx)
  | .ok request =>
    if local_only = true ∧ client.ip.is_loopback = false ∧ request.method ∉ pubs then
      (.error .LocalHostOnly, ctx)
    else if ctx.is_banned client.ip = true then
      (.error .Banned, ctx)
    else
      match auth pubs rpc_password_conf request ctx client with
      | (.error e, ctx2) => (.error e, ctx2)
      | (.ok _, ctx2) =>
        match request.mmrpc with
        | .V2 => (dispatcher_v2 wasm request.method, ctx2)

/-- Rate-limiter fixture with every address banned and no recorded
failures. -/
def ctxAllBanned : RateLimitContext := ⟨fun _ => 0, fun _ => true⟩

/-- Rate-limiter fixture with no bans and no recorded failures. -/
def ctxClean : RateLimitContext := ⟨fun _ => 0, fun _ => false⟩

/-- Non-loopback client address fixture. -/
def client7 : SocketAddr := ⟨⟨7, false⟩⟩

theorem isPrefixOf_eq_true_iff {l1 l2 : List Char} :
    l1.isPrefixOf l2 = true ↔ ∃ t, l1 ++ t = l2 := by
  rw [ List.isPrefixOf_iff_prefix]
  exact Iff.rfl

theorem stripNs_eq_some {p s r : String} : stripNs p s = some r ↔ s = p ++ r := by
  unfold stripNs
  split
  · next hp =>
    obtain ⟨t, ht⟩ := isPrefixOf_eq_true_iff.mp hp
    have hdrop : s.data.drop p.data.length = t := by
      rw [← ht]
      exact List.drop_left _ _
    constructor
    · intro h
      have h2 : String.mk (s.data.drop p.data.length) = r := Option.some.inj h
      apply String.ext
      rw [String.data_append, ← ht, ← h2, hdrop]
    · intro h
      have hd : s.data = p.data ++ r.data := by
        rw [h, String.data_append]
      have htr : t = r.data := List.append_cancel_left (ht.trans hd)
      rw [hdrop, htr]
  · next hp =>
    constructor
    · intro h
      exact absurd h (by simp)
    · intro h
      exfalso
      apply hp
      apply isPrefixOf_eq_true_iff.mpr
      exact ⟨r.data, by rw [h, String.data_append]⟩

theorem stripNs_eq_none {p s : String} : stripNs p s = none ↔ ∀ r, s ≠ p ++ r := by
  constructor
  · intro h r he
    have : stripNs p s = some r := stripNs_eq_some.mpr he
    rw [h] at this
    exact absurd this (by simp)
  · intro h
    cases hh : stripNs p s with
    | none => rfl
    | some r => exact absurd (stripNs_eq_some.mp hh) (h r)

theorem lookup_eq_none_of_not_mem_keys {m : String} {t : List (String × Handler)}
    (h : m ∉ keysOf t) : List.lookup m t = none := by
  apply List.lookup_eq_none_iff.mpr
  intro p hp
  apply bne_iff_ne.mpr
  intro he
  exact h (he ▸ List.mem_map_of_mem Prod.fst hp)

theorem table_dispatch_eq_error {t : List (String × Handler)} {m : String}
    (h : m ∉ keysOf t) : table_dispatch t m = .error .NoSuchMethod := by
  unfold table_dispatch
  rw [lookup_eq_none_of_not_mem_keys h]

theorem table_dispatch_mem {t : List (String × Handler)} {m : String} {h : Handler}
    (hl : List.lookup m t = some h) : table_dispatch t m = .ok h := by
  unfold table_dispatch
  rw [hl]

theorem sub_not_mem {f : String → String} {keys : List String} {m : String}
    (h : m ∉ List.map f keys) {r : String} (hm : m = f r) : r ∉ keys :=
  fun hk => h (List.mem_map.mpr ⟨r, hk, hm.symm⟩)

theorem stripNs_append {p r : String} : stripNs p (p ++ r) = some r :=
  stripNs_eq_some.mpr rfl

theorem dispatcher_v2_stream {wasm : Bool} {m r : String}
    (h : stripNs "stream::" m = some r) :
    dispatcher_v2 wasm m = rpc_streaming_dispatcher r := by
  unfold dispatcher_v2
  rw [h]

theorem dispatcher_v2_task {wasm : Bool} {m r : String}
    (h1 : stripNs "stream::" m = none)
    (h : stripNs "task::" m = some r) :
    dispatcher_v2 wasm m = rpc_task_dispatcher wasm r := by
  unfold dispatcher_v2
  rw [h1, h]

theorem dispatcher_v2_gui {wasm : Bool} {m r : String}
    (h1 : stripNs "stream::" m = none)
    (h2 : stripNs "task::" m = none)
    (h : stripNs "gui_storage::" m = some r) :
    dispatcher_v2 wasm m = gui_storage_dispatcher r := by
  unfold dispatcher_v2
  rw [h1, h2, h]

theorem dispatcher_v2_experimental {wasm : Bool} {m r : String}
    (h1 : stripNs "stream::" m = none)
    (h2 : stripNs "task::" m = none)
    (h3 : stripNs "gui_storage::" m = none)
    (h : stripNs "experimental::" m = some r) :
    dispatcher_v2 wasm m = experimental_rpcs_dispatcher r := by
  unfold dispatcher_v2
  rw [h1, h2, h3, h]

theorem dispatcher_v2_lightning {m r : String}
    (h1 : stripNs "stream::" m = none)
    (h2 : stripNs "task::" m = none)
    (h3 : stripNs "gui_storage::" m = none)
    (h4 : stripNs "experimental::" m = none)
    (h : stripNs "lightning::" m = some r) :
    dispatcher_v2 false m = lightning_dispatcher r := by
  unfold dispatcher_v2
  rw [h1, h2, h3, h4]
  simp only [Bool.false_eq_true, if_false]
  rw [h]

theorem dispatcher_v2_flat_wasm {m : String}
    (h1 : stripNs "stream::" m = none)
    (h2 : stripNs "task::" m = none)
    (h3 : stripNs "gui_storage::" m = none)
    (h4 : stripNs "experimental::" m = none) :
    dispatcher_v2 true m = table_dispatch topTable m := by
  unfold dispatcher_v2
  rw [h1, h2, h3, h4]
  simp only [if_true]

theorem dispatcher_v2_flat_native {m : String}
    (h1 : stripNs "stream::" m = none)
    (h2 : stripNs "task::" m = none)
    (h3 : stripNs "gui_storage::" m = none)
    (h4 : stripNs "experimental::" m = none)
    (h5 : stripNs "lightning::" m = none) :
    dispatcher_v2 false m = table_dispatch topTable m := by
  unfold dispatcher_v2
  rw [h1, h2, h3, h4]
  simp only [Bool.false_eq_true, if_false]
  rw [h5]

/-- C1: a method string that resolves through no namespace chain and no
flat table at any level of the router (top-level, `task::`, `stream::`,
`gui_storage::`, `experimental::`, `experimental::staking::`,
`experimental::staking::query::`, and `lightning::` on non-wasm builds)
is answered with the `NoSuchMethod` error, on either build; routing is
a total function, so it neither panics nor falls into a default
handler. -/
theorem c1_unroutable_no_such_method (wasm : Bool) (m : String)
    (h : m ∉ routableMethods wasm) :
    dispatcher_v2 wasm m = .error .NoSuchMethod := by
  rw [routableMethods] at h
  simp only [List.mem_append, not_or] at h
  obtain ⟨⟨⟨⟨⟨⟨h1, h2⟩, h3⟩, h4⟩, h5⟩, h6⟩, h7⟩ := h
  cases hs : stripNs "stream::" m with
  | some r =>
    rw [dispatcher_v2_stream hs]
    exact table_dispatch_eq_error (sub_not_mem h1 (stripNs_eq_some.mp hs))
  | none =>
  cases ht : stripNs "task::" m with
  | some r =>
    rw [dispatcher_v2_task hs ht]
    exact table_dispatch_eq_error (sub_not_mem h2 (stripNs_eq_some.mp ht))
  | none =>
  cases hg : stripNs "gui_storage::" m with
  | some r =>
    rw [dispatcher_v2_gui hs ht hg]
    exact table_dispatch_eq_error (sub_not_mem h3 (stripNs_eq_some.mp hg))
  | none =>
  cases he : stripNs "experimental::" m with
  | some r =>
    rw [dispatcher_v2_experimental hs ht hg he]
    have hm := stripNs_eq_some.mp he
    cases hstk : stripNs "staking::" r with
    | none => simp [experimental_rpcs_dispatcher, hstk]
    | some s =>
      have hms := stripNs_eq_some.mp hstk
      simp only [experimental_rpcs_dispatcher, hstk]
      cases hq : stripNs "query::" s with
      | some q =>
        have hmq := stripNs_eq_some.mp hq
        simp only [staking_dispatcher, hq]
        apply table_dispatch_eq_error
        apply sub_not_mem h4
        rw [hm, hms, hmq]
      | none =>
        simp only [staking_dispatcher, hq]
        apply table_dispatch_eq_error
        apply sub_not_mem h5
        rw [hm, hms]
  | none =>
  cases wasm with
  | true =>
    rw [dispatcher_v2_flat_wasm hs ht hg he]
    exact table_dispatch_eq_error h7
  | false =>
    simp only [Bool.false_eq_true, if_false] at h6
    cases hl : stripNs "lightning::" m with
    | some r =>
      rw [dispatcher_v2_lightning hs ht hg he hl]
      exact table_dispatch_eq_error (sub_not_mem h6 (stripNs_eq_some.mp hl))
    | none =>
      rw [dispatcher_v2_flat_native hs ht hg he hl]
      exact table_dispatch_eq_error h7

theorem c1_witness :
    ("bogus::method" ∉ routableMethods false)
    ∧ dispatcher_v2 false "bogus::method" = .error .NoSuchMethod :=
  ⟨by decide, c1_unroutable_no_such_method false "bogus::method" (by decide)⟩

/-- C2: the top-level router tests namespace remainders in the fixed
source order `stream::`, `task::`, `gui_storage::`, `experimental::`,
and, on non-wasm builds only, `lightning::`; the first test that
succeeds hands the remainder to that namespace's sub-router, and on
wasm builds a method surviving the first four tests goes straight to
the flat table (so a `lightning::`-shaped string falls through there).
Consequently a string matching more than one textual namespace always
routes to the first-listed one. -/
theorem c2_namespace_order_fixed (wasm : Bool) (m : String) :
    (∀ r, stripNs "stream::" m = some r → dispatcher_v2 wasm m = rpc_streaming_dispatcher r)
  ∧ (stripNs "stream::" m = none → ∀ r, stripNs "task::" m = some r →
      dispatcher_v2 wasm m = rpc_task_dispatcher wasm r)
  ∧ (stripNs "stream::" m = none → stripNs "task::" m = none → ∀ r,
      stripNs "gui_storage::" m = some r → dispatcher_v2 wasm m = gui_storage_dispatcher r)
  ∧ (stripNs "stream::" m = none → stripNs "task::" m = none →
      stripNs "gui_storage::" m = none → ∀ r,
      stripNs "experimental::" m = some r → dispatcher_v2 wasm m = experimental_rpcs_dispatcher r)
  ∧ (wasm = false → stripNs "stream::" m = none → stripNs "task::" m = none →
      stripNs "gui_storage::" m = none → stripNs "experimental::" m = none → ∀ r,
      stripNs "lightning::" m = some r → dispatcher_v2 wasm m = lightning_dispatcher r)
  ∧ (wasm = true → stripNs "stream::" m = none → stripNs "task::" m = none →
      stripNs "gui_storage::" m = none → stripNs "experimental::" m = none →
      dispatcher_v2 wasm m = table_dispatch topTable m) := by
  refine ⟨?_, ?_, ?_, ?_, ?_, ?_⟩
  · intro r h
    exact dispatcher_v2_stream h
  · intro h1 r h
    exact dispatcher_v2_task h1 h
  · intro h1 h2 r h
    exact dispatcher_v2_gui h1 h2 h
  · intro h1 h2 h3 r h
    exact dispatcher_v2_experimental h1 h2 h3 h
  · intro hw h1 h2 h3 h4 r h
    subst hw
    exact dispatcher_v2_lightning h1 h2 h3 h4 h
  · intro hw h1 h2 h3 h4
    subst hw
    exact dispatcher_v2_flat_wasm h1 h2 h3 h4

theorem c2_witness :
    stripNs "stream::" "stream::task::withdraw::init" = some "task::withdraw::init"
    ∧ dispatcher_v2 false "stream::task::withdraw::init"
        = rpc_streaming_dispatcher "task::withdraw::init" :=
  ⟨by decide,
   (c2_namespace_order_fixed false "stream::task::withdraw::init").1 "task::withdraw::init" (by decide)⟩

/-- C7: within `experimental::`, a `staking::` remainder is peeled
before an optional `query::` remainder, bottoming out in the two flat
staking tables: the six full method names route to their handlers on
either build, an `experimental::` remainder that does not start with
`staking::` is `NoSuchMethod` (there is no flat table at that level),
and after peeling, a remainder missing the relevant flat table is
`NoSuchMethod`. -/
theorem c7_experimental_staking_routing :
    (∀ wasm, dispatcher_v2 wasm "experimental::staking::query::delegations"
        = .ok ⟨"delegations_info"⟩)
  ∧ (∀ wasm, dispatcher_v2 wasm "experimental::staking::query::ongoing_undelegations"
        = .ok ⟨"ongoing_undelegations_info"⟩)
  ∧ (∀ wasm, dispatcher_v2 wasm "experimental::staking::query::validators"
        = .ok ⟨"validators_info"⟩)
  ∧ (∀ wasm, dispatcher_v2 wasm "experimental::staking::claim_rewards"
        = .ok ⟨"claim_staking_rewards"⟩)
  ∧ (∀ wasm, dispatcher_v2 wasm "experimental::staking::delegate"
        = .ok ⟨"add_delegation"⟩)
  ∧ (∀ wasm, dispatcher_v2 wasm "experimental::staking::undelegate"
        = .ok ⟨"remove_delegation"⟩)
  ∧ (∀ r, stripNs "staking::" r = none →
      experimental_rpcs_dispatcher r = .error .NoSuchMethod)
  ∧ (∀ s, stripNs "query::" s = none → s ∉ keysOf stakingTable →
      staking_dispatcher s = .error .NoSuchMethod)
  ∧ (∀ q, q ∉ keysOf stakingQueryTable →
      staking_dispatcher ("query::" ++ q) = .error .NoSuchMethod) := by
  refine ⟨?_, ?_, ?_, ?_, ?_, ?_, ?_, ?_, ?_⟩
  · intro wasm
    cases wasm <;> decide
  · intro wasm
    cases wasm <;> decide
  · intro wasm
    cases wasm <;> decide
  · intro wasm
    cases wasm <;> decide
  · intro wasm
    cases wasm <;> decide
  · intro wasm
    cases wasm <;> decide
  · intro r h
    simp [experimental_rpcs_dispatcher, h]
  · intro s h hk
    simp only [staking_dispatcher, h]
    exact table_dispatch_eq_error hk
  · intro q hk
    simp only [staking_dispatcher, stripNs_append]
    exact table_dispatch_eq_error hk

theorem c7_witness :
    stripNs "staking::" "nonstaking::query::validators" = none
    ∧ experimental_rpcs_dispatcher "nonstaking::query::validators" = .error .NoSuchMethod :=
  ⟨by decide,
   c7_experimental_staking_routing.2.2.2.2.2.2.1 "nonstaking::query::validators" (by decide)⟩

theorem auth_fail_missing {pubs : List String} {rpc_password_conf : Option String}
    {meth : String} {ctx : RateLimitContext} {client : SocketAddr}
    (hpub : meth ∉ pubs) :
    auth pubs rpc_password_conf ⟨.V2, meth, none⟩ ctx client
      = (.error .UserpassIsNotSet, ctx) := by
  simp [auth, hpub]

theorem auth_fail_wrong {pubs : List String} {rpc_password_conf : Option String}
    {meth : String} {ctx : RateLimitContext} {client : SocketAddr} {s : String}
    (hpub : meth ∉ pubs) (hs : s ≠ rpc_password_conf.getD "") :
    auth pubs rpc_password_conf ⟨.V2, meth, some s⟩ ctx client
      = (.error .IncorrectCredential, (process_rate_limit ctx client).1) := by
  simp [auth, hpub, hs, process_rate_limit]

theorem c3_counterexample :
    ctxAllBanned.is_banned client7.ip = true
    ∧ (process_single_request [] (some "pw") false ctxAllBanned
        (.wellFormed ⟨.V2, "withdraw", some "pw"⟩) client7 true).1 = .error .LocalHostOnly
    ∧ DispatcherError.LocalHostOnly ≠ DispatcherError.Banned :=
  ⟨rfl, by decide, by decide⟩

/-- C3 (amended): for every well-formed request that the local-only
check does not reject, coming from a client address that is currently
banned, dispatch returns `Banned` and leaves the rate-limiter state
untouched — in particular `auth` is never invoked and no credential
comparison occurs, which is visible here because the outcome is a
constant independent of the request's credential and of the configured
password.  (The unamended claim fails because the local-only check
precedes the ban check: see `c3_counterexample`.) -/
theorem c3_amended_banned_before_auth (pubs : List String)
    (rpc_password_conf : Option String) (wasm : Bool) (ctx : RateLimitContext)
    (request : MmRpcRequest) (client : SocketAddr) (local_only : Bool)
    (hlocal : ¬(local_only = true ∧ client.ip.is_loopback = false ∧ request.method ∉ pubs))
    (hban : ctx.is_banned client.ip = true) :
    process_single_request pubs rpc_password_conf wasm ctx (.wellFormed request) client local_only
      = (.error .Banned, ctx) := by
  simp only [process_single_request, decode_request]
  rw [if_neg hlocal, if_pos hban]

theorem c3_witness :
    ¬(false = true ∧ client7.ip.is_loopback = false ∧ "withdraw" ∉ ([] : List String))
    ∧ ctxAllBanned.is_banned client7.ip = true
    ∧ process_single_request [] (some "pw") false ctxAllBanned
        (.wellFormed ⟨.V2, "withdraw", some "bad"⟩) client7 false
      = (.error .Banned, ctxAllBanned) :=
  ⟨by decide, rfl,
   c3_amended_banned_before_auth [] (some "pw") false ctxAllBanned
     ⟨.V2, "withdraw", some "bad"⟩ client7 false (by decide) rfl⟩

theorem c4_counterexample :
    ("version" ∈ ["version"])
    ∧ ctxAllBanned.is_banned client7.ip = true
    ∧ (process_single_request ["version"] (some "pw") false ctxAllBanned
        (.wellFormed ⟨.V2, "version", none⟩) client7 false).1 = .error .Banned
    ∧ (process_single_request ["version"] (some "pw") false ctxAllBanned
        (.wellFormed ⟨.V2, "version", none⟩) client7 false).1
        ≠ dispatcher_v2 false "version" :=
  ⟨by decide, rfl, by decide, by decide⟩

/-- C4 (amended): for a request whose method is in the public set, the
auth gate authorizes unconditionally — with no credential or with an
arbitrary wrong one, the credential being universally quantified here —
and leaves the rate limiter untouched; in full dispatch the request
then proceeds to routing provided the client address is not currently
banned.  (The unamended claim fails for currently banned peers: the
ban check precedes `auth` and does not exempt public methods, see
`c4_counterexample`.) -/
theorem c4_amended_public_auth (pubs : List String) (rpc_password_conf : Option String)
    (wasm : Bool) (ctx : RateLimitContext) (meth : String) (up : Option String)
    (client : SocketAddr) (local_only : Bool) (hpub : meth ∈ pubs) :
    auth pubs rpc_password_conf ⟨.V2, meth, up⟩ ctx client = (.ok (), ctx)
    ∧ (ctx.is_banned client.ip = false →
        process_single_request pubs rpc_password_conf wasm ctx
            (.wellFormed ⟨.V2, meth, up⟩) client local_only
          = (dispatcher_v2 wasm meth, ctx)) := by
  have hauth : auth pubs rpc_password_conf ⟨.V2, meth, up⟩ ctx client = (.ok (), ctx) := by
    simp [auth, hpub]
  refine ⟨hauth, ?_⟩
  intro hban
  simp only [process_single_request, decode_request]
  rw [if_neg (fun hk => hk.2.2 hpub), if_neg (by rw [hban]; simp), hauth]

theorem c4_witness :
    ("version" ∈ ["version"])
    ∧ ctxClean.is_banned client7.ip = false
    ∧ auth ["version"] (some "pw") ⟨.V2, "version", some "garbage"⟩ ctxClean client7
        = (.ok (), ctxClean)
    ∧ process_single_request ["version"] (some "pw") false ctxClean
        (.wellFormed ⟨.V2, "version", some "garbage"⟩) client7 false
        = (dispatcher_v2 false "version", ctxClean) :=
  ⟨by decide, rfl,
   (c4_amended_public_auth ["version"] (some "pw") false ctxClean "version"
      (some "garbage") client7 false (by decide)).1,
   (c4_amended_public_auth ["version"] (some "pw") false ctxClean "version"
      (some "garbage") client7 false (by decide)).2 rfl⟩

/-- C5: for a non-public method on a server configured with password
`rpc_password`, `auth` succeeds when the supplied credential equals the
configured one; fails with `UserpassIsNotSet` (the source's name for
the spec's `CredentialMissing`) when no credential is supplied, leaving
the rate limiter untouched; and fails with `IncorrectCredential` when
the credential mismatches, recording exactly one failed attempt against
the client's address and nothing else. -/
theorem c5_protected_auth (pubs : List String) (rpc_password : String) (meth : String)
    (ctx : RateLimitContext) (client : SocketAddr) (hpub : meth ∉ pubs) :
    (auth pubs (some rpc_password) ⟨.V2, meth, some rpc_password⟩ ctx client = (.ok (), ctx))
  ∧ (auth pubs (some rpc_password) ⟨.V2, meth, none⟩ ctx client
      = (.error .UserpassIsNotSet, ctx))
  ∧ (∀ u, u ≠ rpc_password →
      (auth pubs (some rpc_password) ⟨.V2, meth, some u⟩ ctx client).1
          = .error .IncorrectCredential
      ∧ (auth pubs (some rpc_password) ⟨.V2, meth, some u⟩ ctx client).2.failures client.ip
          = ctx.failures client.ip + 1
      ∧ (∀ ip, ip ≠ client.ip →
          (auth pubs (some rpc_password) ⟨.V2, meth, some u⟩ ctx client).2.failures ip
            = ctx.failures ip)
      ∧ (auth pubs (some rpc_password) ⟨.V2, meth, some u⟩ ctx client).2.banned
          = ctx.banned) := by
  refine ⟨by simp [auth, hpub], auth_fail_missing hpub, ?_⟩
  intro u hu
  have hw := @auth_fail_wrong pubs (some rpc_password) meth ctx client u hpub (by simpa using hu)
  rw [hw]
  refine ⟨rfl, by simp [process_rate_limit], ?_, rfl⟩
  intro ip hip
  simp [process_rate_limit, hip]

theorem c5_witness :
    ("withdraw" ∉ ([] : List String))
    ∧ ("bad" ≠ "pw")
    ∧ (auth [] (some "pw") ⟨.V2, "withdraw", some "bad"⟩ ctxClean client7).1
        = .error .IncorrectCredential
    ∧ (auth [] (some "pw") ⟨.V2, "withdraw", some "bad"⟩ ctxClean client7).2.failures client7.ip
        = ctxClean.failures client7.ip + 1 :=
  ⟨by decide, by decide,
   ((c5_protected_auth [] "pw" "withdraw" ctxClean client7 (by decide)).2.2 "bad" (by decide)).1,
   ((c5_protected_auth [] "pw" "withdraw" ctxClean client7 (by decide)).2.2 "bad" (by decide)).2.1⟩

/-- C6: when no `rpc_password` is configured the auth gate compares
against the empty string: a non-public method is authorized exactly
when the supplied credential is `some ""`; supplying no credential at
all still fails with `UserpassIsNotSet` (the source's name for the
spec's `CredentialMissing`), and any non-empty credential fails with
`IncorrectCredential`. -/
theorem c6_unconfigured_password (pubs : List String) (meth : String)
    (ctx : RateLimitContext) (client : SocketAddr) (hpub : meth ∉ pubs) :
    (∀ u, (auth pubs none ⟨.V2, meth, some u⟩ ctx client).1 = .ok () ↔ u = "")
  ∧ (auth pubs none ⟨.V2, meth, none⟩ ctx client = (.error .UserpassIsNotSet, ctx))
  ∧ (∀ u, u ≠ "" →
      (auth pubs none ⟨.V2, meth, some u⟩ ctx client).1 = .error .IncorrectCredential) := by
  refine ⟨?_, auth_fail_missing hpub, ?_⟩
  · intro u
    constructor
    · intro h
      by_contra hne
      have hw := @auth_fail_wrong pubs none meth ctx client u hpub (by simpa using hne)
      rw [hw] at h
      exact absurd h (by simp)
    · intro h
      subst h
      simp [auth, hpub]
  · intro u hu
    have hw := @auth_fail_wrong pubs none meth ctx client u hpub (by simpa using hu)
    rw [hw]

theorem c6_witness :
    ("withdraw" ∉ ([] : List String))
    ∧ (auth [] none ⟨.V2, "withdraw", some ""⟩ ctxClean client7).1 = .ok ()
    ∧ (auth [] none ⟨.V2, "withdraw", some "x"⟩ ctxClean client7).1 = .error .IncorrectCredential :=
  ⟨by decide,
   ((c6_unconfigured_password [] "withdraw" ctxClean client7 (by decide)).1 "").mpr rfl,
   (c6_unconfigured_password [] "withdraw" ctxClean client7 (by decide)).2.2 "x" (by decide)⟩

/-- C8: a raw request value that fails to decode into the envelope
shape is answered with `MalformedRequest` immediately: the rate-limiter
state is returned unchanged, and the outcome is a constant independent
of the public set, the configured password, the client address, the
local-only flag and the ban state — so no credential comparison, no
rate-limiter mutation and no handler selection occur. -/
theorem c8_malformed_before_auth (pubs : List String) (rpc_password_conf : Option String)
    (wasm : Bool) (ctx : RateLimitContext) (client : SocketAddr) (local_only : Bool) :
    process_single_request pubs rpc_password_conf wasm ctx .malformed client local_only
      = (.error .MalformedRequest, ctx) := rfl

/-- C9: authentication precedes routing, so two well-formed requests
that differ only in their non-public method name and carry the same
failing credential (none, or one that mismatches the effective
password) produce identical dispatch outcomes and identical
rate-limiter states — the response does not reveal whether the named
protected method exists. -/
theorem c9_auth_before_routing (pubs : List String) (rpc_password_conf : Option String)
    (wasm : Bool) (ctx : RateLimitContext) (client : SocketAddr) (local_only : Bool)
    (m1 m2 : String) (u : Option String)
    (h1 : m1 ∉ pubs) (h2 : m2 ∉ pubs)
    (hfail : ∀ s, u = some s → s ≠ rpc_password_conf.getD "") :
    process_single_request pubs rpc_password_conf wasm ctx
        (.wellFormed ⟨.V2, m1, u⟩) client local_only
      = process_single_request pubs rpc_password_conf wasm ctx
        (.wellFormed ⟨.V2, m2, u⟩) client local_only := by
  simp only [process_single_request, decode_request]
  by_cases hc : local_only = true ∧ client.ip.is_loopback = false
  · rw [if_pos ⟨hc.1, hc.2, h1⟩, if_pos ⟨hc.1, hc.2, h2⟩]
  · have hcond1 : ¬(local_only = true ∧ client.ip.is_loopback = false ∧ m1 ∉ pubs) :=
      fun hk => hc ⟨hk.1, hk.2.1⟩
    have hcond2 : ¬(local_only = true ∧ client.ip.is_loopback = false ∧ m2 ∉ pubs) :=
      fun hk => hc ⟨hk.1, hk.2.1⟩
    rw [if_neg hcond1, if_neg hcond2]
    by_cases hb : ctx.is_banned client.ip = true
    · rw [if_pos hb, if_pos hb]
    · rw [if_neg hb, if_neg hb]
      cases u with
      | none => rw [auth_fail_missing h1, auth_fail_missing h2]
      | some s =>
        have hs := hfail s rfl
        rw [auth_fail_wrong h1 hs, auth_fail_wrong h2 hs]

theorem c9_witness :
    ("withdraw" ∉ ([] : List String))
    ∧ ("no_such_method_xyz" ∉ ([] : List String))
    ∧ process_single_request [] (some "pw") false ctxClean
        (.wellFormed ⟨.V2, "withdraw", some "bad"⟩) client7 false
      = process_single_request [] (some "pw") false ctxClean
        (.wellFormed ⟨.V2, "no_such_method_xyz", some "bad"⟩) client7 false :=
  ⟨by decide, by decide,
   c9_auth_before_routing [] (some "pw") false ctxClean client7 false
     "withdraw" "no_such_method_xyz" (some "bad") (by decide) (by decide)
     (by
       intro s hs hcontra
       rw [Option.some.injEq] at hs
       subst hs
       exact absurd hcontra (by decide))⟩

/-- C10: the local-only check is the first gate after decoding: a
well-formed request with the local-only flag set, from a non-loopback
client, to a non-public method, is answered with `LocalHostOnly` and an
unchanged rate-limiter state — the ban state of the address and the
supplied credential are universally quantified here, so this holds even
for currently banned clients and missing or wrong credentials. -/
theorem c10_local_only_first (pubs : List String) (rpc_password_conf : Option String)
    (wasm : Bool) (ctx : RateLimitContext) (meth : String) (up : Option String)
    (client : SocketAddr) (hloop : client.ip.is_loopback = false) (hpub : meth ∉ pubs) :
    process_single_request pubs rpc_password_conf wasm ctx
        (.wellFormed ⟨.V2, meth, up⟩) client true
      = (.error .LocalHostOnly, ctx) := by
  simp only [process_single_request, decode_request]
  rw [if_pos ⟨by trivial, hloop, hpub⟩]

theorem c10_witness :
    client7.ip.is_loopback = false
    ∧ ("withdraw" ∉ ([] : List String))
    ∧ ctxAllBanned.is_banned client7.ip = true
    ∧ process_single_request [] (some "pw") false ctxAllBanned
        (.wellFormed ⟨.V2, "withdraw", some "bad"⟩) client7 true
        = (.error .LocalHostOnly, ctxAllBanned) :=
  ⟨rfl, by decide, rfl,
   c10_local_only_first [] (some "pw") false ctxAllBanned "withdraw" (some "bad") client7
     rfl (by decide)⟩
